import Mathlib

/-!
# pebble-bot: the BLE control window (`ble_sumo_control.c`)

A shallow embedding of the three callback families of `ble_sumo_control.c`:

* `service_change_handler` (resolution of the two Bean "Scratch" characteristics),
* `connection_handler`,
* the six raw-click handlers and `click_config_provider`.

The Pebble SDK (everything declared in `pebble.h`) is external to the file.  Its
constants and the answers of the BLE stack are collected in `PebbleSDK` and every
function of the embedding takes it as a parameter.  A callback is a function from
the global context `s_ctx` to a `Machine`: the context when the callback returns
and the list of calls it made, in program order.  `APP_LOG` and `printf` are kept
in that list; the window and text-layer pointers of the context play no part in
the callbacks above and are left out.
-/

namespace PebbleBot

/-! ## SDK types -/

/-- A 128-bit UUID: its sixteen bytes in the argument order of `UuidMake`. -/
structure Uuid where
  bytes : List Nat
deriving DecidableEq

/-- The SDK's `UuidMake(p0, ..., p15)`. -/
def UuidMake (p0 p1 p2 p3 p4 p5 p6 p7 p8 p9 p10 p11 p12 p13 p14 p15 : Nat) : Uuid :=
  ⟨[p0, p1, p2, p3, p4, p5, p6, p7, p8, p9, p10, p11, p12, p13, p14, p15]⟩

/-- The SDK's `uuid_equal`: byte-exact comparison. -/
def uuid_equal (a b : Uuid) : Bool := decide (a = b)

/-- Handle of a remote GATT characteristic (`uintptr_t` in the SDK). -/
abbrev BLECharacteristic := Nat

/-- Handle of a remote GATT service. -/
abbrev BLEService := Nat

/-- Handle of a remote device. -/
abbrev BTDevice := Nat

/-- Address of a remote device, as returned by `bt_device_get_address`. -/
abbrev BTDeviceAddress := Nat

/-- Status code of the BLE stack (a C enum). -/
abbrev BTErrno := Int

/-- The part of the Pebble SDK and of the BLE stack the control window talks to.
`service_characteristics s` is the full list of characteristics the stack holds
for service `s`; the SDK reports its length as a `uint8_t`, so a list the code
can meet has fewer than 256 entries. -/
structure PebbleSDK where
  BLE_CHARACTERISTIC_INVALID : BLECharacteristic
  BTErrnoConnected : BTErrno
  ble_service_get_uuid : BLEService → Uuid
  service_characteristics : BLEService → List BLECharacteristic
  ble_characteristic_get_uuid : BLECharacteristic → Uuid
  bt_device_get_address : BTDevice → BTDeviceAddress

/-- The SDK's `ble_service_get_characteristics(service, out, max)`: copies at most
`max` handles into the caller's buffer and returns the total number of
characteristics of the service, which may exceed `max`.  The result is the pair
(buffer contents, returned count). -/
def ble_service_get_characteristics (sdk : PebbleSDK) (service : BLEService)
    (num_characteristics_out_max : Nat) : List BLECharacteristic × Nat :=
  ((sdk.service_characteristics service).take num_characteristics_out_max,
   (sdk.service_characteristics service).length)

/-! ## The context and the calls a callback makes -/

/-- Contents of `info_text_buffer`, kept symbolic: the format used and its
arguments (the rendering by `snprintf` is not modelled). -/
inductive InfoText where
  | empty
  | connection (connected : Bool) (address : BTDeviceAddress) (status : BTErrno)
  | readyToRumble (address : BTDeviceAddress)
deriving DecidableEq

/-- The global `SumoControlCtx s_ctx`. -/
structure SumoControlCtx where
  device : BTDevice
  info_text_buffer : InfoText
  scratch1_characteristic : BLECharacteristic
  scratch2_characteristic : BLECharacteristic
deriving DecidableEq

/-- A call made by a callback.  `ready ctx` marks an entry into `ready()` and
records the context at that moment. -/
inductive Call where
  | ready (ctx : SumoControlCtx)
  | text_layer_set_text (text : InfoText)
  | ble_client_discover_services_and_characteristics (device : BTDevice)
  | ble_client_write_without_response (characteristic : BLECharacteristic)
      (value : Nat) (length : Nat)
  | app_log_service (uuid : Uuid) (service : BLEService) (address : BTDeviceAddress)
  | app_log_scratch (scratch_num : Nat) (uuid : Uuid) (characteristic : BLECharacteristic)
  | printf (text : String)

/-- The context together with the calls made so far. -/
structure Machine where
  s_ctx : SumoControlCtx
  calls : List Call

/-! ## UUID registry -/

/-- The Bean "Scratch Service" UUID a495ff20-c5b1-4b44-b512-1370f02d74de. -/
def bean_scratch_service_uuid : Uuid :=
  UuidMake 0xa4 0x95 0xff 0x20 0xc5 0xb1 0x4b 0x44 0xb5 0x12 0x13 0x70 0xf0 0x2d 0x74 0xde

/-- The "Scratch1" characteristic UUID a495ff21-c5b1-4b44-b512-1370f02d74de. -/
def bean_scratch_char1_uuid : Uuid :=
  UuidMake 0xa4 0x95 0xff 0x21 0xc5 0xb1 0x4b 0x44 0xb5 0x12 0x13 0x70 0xf0 0x2d 0x74 0xde

/-- The "Scratch2" characteristic UUID a495ff22-c5b1-4b44-b512-1370f02d74de. -/
def bean_scratch_char2_uuid : Uuid :=
  UuidMake 0xa4 0x95 0xff 0x22 0xc5 0xb1 0x4b 0x44 0xb5 0x12 0x13 0x70 0xf0 0x2d 0x74 0xde

/-! ## BLE callbacks -/

/-- The function `ready()`: writes the "Ready to Rumble!" text. -/
def ready (sdk : PebbleSDK) (m : Machine) : Machine :=
  let address := sdk.bt_device_get_address m.s_ctx.device
  let text := InfoText.readyToRumble address
  { s_ctx := { m.s_ctx with info_text_buffer := text },
    calls := m.calls ++ [Call.ready m.s_ctx, Call.text_layer_set_text text] }

/-- One iteration of the inner loop of `service_change_handler`, on
`characteristics[c]`. -/
def characteristic_iteration (sdk : PebbleSDK) (m : Machine) (characteristic : BLECharacteristic) :
    Machine :=
  let characteristic_uuid := sdk.ble_characteristic_get_uuid characteristic
  let found : Option (SumoControlCtx × Nat) :=
    if uuid_equal characteristic_uuid bean_scratch_char1_uuid then
      some ({ m.s_ctx with scratch1_characteristic := characteristic }, 1)
    else if uuid_equal characteristic_uuid bean_scratch_char2_uuid then
      some ({ m.s_ctx with scratch2_characteristic := characteristic }, 2)
    else
      none
  match found with
  | none => m
  | some (ctx, scratch_num) =>
    let m1 : Machine :=
      { s_ctx := ctx,
        calls := m.calls ++ [Call.app_log_scratch scratch_num characteristic_uuid characteristic] }
    if m1.s_ctx.scratch1_characteristic ≠ sdk.BLE_CHARACTERISTIC_INVALID ∧
        m1.s_ctx.scratch2_characteristic ≠ sdk.BLE_CHARACTERISTIC_INVALID then
      ready sdk m1
    else
      m1

/-- One iteration of the outer loop of `service_change_handler`, on `services[i]`. -/
def service_iteration (sdk : PebbleSDK) (device : BTDevice) (m : Machine) (service : BLEService) :
    Machine :=
  let service_uuid := sdk.ble_service_get_uuid service
  if !uuid_equal service_uuid bean_scratch_service_uuid then
    m
  else
    let address := sdk.bt_device_get_address device
    let m1 : Machine :=
      { m with calls := m.calls ++ [Call.app_log_service service_uuid service address] }
    let answer := ble_service_get_characteristics sdk service 8
    let characteristics := answer.1
    let num_characteristics := if answer.2 > 8 then 8 else answer.2
    (characteristics.take num_characteristics).foldl (characteristic_iteration sdk) m1

/-- The callback `service_change_handler(device, services, num_services, status)`;
`services` is the array with its `num_services` entries. -/
def service_change_handler (sdk : PebbleSDK) (s_ctx : SumoControlCtx) (device : BTDevice)
    (services : List BLEService) (_status : BTErrno) : Machine :=
  let m0 : Machine :=
    { s_ctx := { s_ctx with
                  scratch1_characteristic := sdk.BLE_CHARACTERISTIC_INVALID,
                  scratch2_characteristic := sdk.BLE_CHARACTERISTIC_INVALID },
      calls := [] }
  services.foldl (service_iteration sdk device) m0

/-- The callback `connection_handler(device, connection_status)`. -/
def connection_handler (sdk : PebbleSDK) (s_ctx : SumoControlCtx) (device : BTDevice)
    (connection_status : BTErrno) : Machine :=
  let address := sdk.bt_device_get_address device
  let connected : Bool := decide (connection_status = sdk.BTErrnoConnected)
  let text := InfoText.connection connected address connection_status
  let m1 : Machine :=
    { s_ctx := { s_ctx with info_text_buffer := text },
      calls := [Call.text_layer_set_text text] }
  if connected then
    { m1 with calls := m1.calls ++ [Call.ble_client_discover_services_and_characteristics device] }
  else
    m1

/-! ## Button -> characteristic write glue code -/

def SERVO_BACK : Nat := 180
def SERVO_STILL : Nat := 90
def SERVO_FWD : Nat := 0

/-- The C expression `sizeof(x)` for a `uint16_t` object. -/
def sizeof_uint16_t : Nat := 2

def handle_up_button_up (s_ctx : SumoControlCtx) : Machine :=
  { s_ctx := s_ctx,
    calls := [Call.ble_client_write_without_response s_ctx.scratch1_characteristic
                SERVO_STILL sizeof_uint16_t,
              Call.printf "UP=0"] }

def handle_up_button_down (s_ctx : SumoControlCtx) : Machine :=
  { s_ctx := s_ctx,
    calls := [Call.ble_client_write_without_response s_ctx.scratch1_characteristic
                SERVO_BACK sizeof_uint16_t,
              Call.printf "UP=1"] }

def handle_down_button_up (s_ctx : SumoControlCtx) : Machine :=
  { s_ctx := s_ctx,
    calls := [Call.ble_client_write_without_response s_ctx.scratch2_characteristic
                SERVO_STILL sizeof_uint16_t,
              Call.printf "DOWN=0"] }

def handle_down_button_down (s_ctx : SumoControlCtx) : Machine :=
  { s_ctx := s_ctx,
    calls := [Call.ble_client_write_without_response s_ctx.scratch2_characteristic
                SERVO_FWD sizeof_uint16_t,
              Call.printf "DOWN=1"] }

def handle_select_button_up (s_ctx : SumoControlCtx) : Machine :=
  { s_ctx := s_ctx,
    calls := [Call.ble_client_write_without_response s_ctx.scratch1_characteristic
                SERVO_STILL sizeof_uint16_t,
              Call.ble_client_write_without_response s_ctx.scratch2_characteristic
                SERVO_STILL sizeof_uint16_t,
              Call.printf "SELECT=0"] }

def handle_select_button_down (s_ctx : SumoControlCtx) : Machine :=
  { s_ctx := s_ctx,
    calls := [Call.ble_client_write_without_response s_ctx.scratch1_characteristic
                SERVO_FWD sizeof_uint16_t,
              Call.ble_client_write_without_response s_ctx.scratch2_characteristic
                SERVO_BACK sizeof_uint16_t,
              Call.printf "SELECT=1"] }

/-- The SDK's button identifiers. -/
inductive ButtonId where
  | BUTTON_ID_BACK
  | BUTTON_ID_UP
  | BUTTON_ID_SELECT
  | BUTTON_ID_DOWN
deriving DecidableEq

/-- One `window_raw_click_subscribe(button_id, down_handler, up_handler, NULL)`. -/
structure RawClickSubscription where
  button_id : ButtonId
  down_handler : SumoControlCtx → Machine
  up_handler : SumoControlCtx → Machine

/-- The function `click_config_provider`: the three subscriptions it registers. -/
def click_config_provider : List RawClickSubscription :=
  [ ⟨ButtonId.BUTTON_ID_UP, handle_up_button_down, handle_up_button_up⟩,
    ⟨ButtonId.BUTTON_ID_DOWN, handle_down_button_down, handle_down_button_up⟩,
    ⟨ButtonId.BUTTON_ID_SELECT, handle_select_button_down, handle_select_button_up⟩ ]

/-- The two edges of a raw click. -/
inductive ButtonEdge where
  | Pressed
  | Released
deriving DecidableEq

/-- Delivery of a raw click by the SDK: the handler subscribed for the button and
the edge runs (`down_handler` on press, `up_handler` on release); a button without
subscription runs nothing. -/
def button_event (button : ButtonId) (edge : ButtonEdge) (s_ctx : SumoControlCtx) : Machine :=
  match click_config_provider.find? (fun s => decide (s.button_id = button)) with
  | none => { s_ctx := s_ctx, calls := [] }
  | some s =>
    match edge with
    | ButtonEdge.Pressed => s.down_handler s_ctx
    | ButtonEdge.Released => s.up_handler s_ctx

/-- Delivery of a sequence of raw clicks, one callback after the other. -/
def button_events : List (ButtonId × ButtonEdge) → SumoControlCtx → Machine
  | [], s_ctx => { s_ctx := s_ctx, calls := [] }
  | (button, edge) :: rest, s_ctx =>
    let m := button_event button edge s_ctx
    let m2 := button_events rest m.s_ctx
    { s_ctx := m2.s_ctx, calls := m.calls ++ m2.calls }

/-! ## Observations on a list of calls -/

/-- Number of entries into `ready()`. -/
def ready_count (calls : List Call) : Nat :=
  (calls.filter (fun c => match c with | Call.ready _ => true | _ => false)).length

/-- The `ble_client_write_without_response` calls, in order, as
(characteristic, value, length in bytes). -/
def writes (calls : List Call) : List (BLECharacteristic × Nat × Nat) :=
  calls.filterMap (fun c =>
    match c with
    | Call.ble_client_write_without_response ch v n => some (ch, v, n)
    | _ => none)

/-- The characteristics `service_change_handler` looks at, in the order it looks
at them: the first 8 of every service carrying the Scratch Service UUID, services
in list order. -/
def enumerated (sdk : PebbleSDK) (services : List BLEService) : List BLECharacteristic :=
  (services.filter (fun s => uuid_equal (sdk.ble_service_get_uuid s) bean_scratch_service_uuid)).flatMap
    (fun s => (sdk.service_characteristics s).take 8)

/-- The last element of `l` carrying `uuid`, and `dflt` when there is none. -/
def last_with_uuid (sdk : PebbleSDK) (uuid : Uuid) (dflt : BLECharacteristic)
    (l : List BLECharacteristic) : BLECharacteristic :=
  ((l.filter (fun c => uuid_equal (sdk.ble_characteristic_get_uuid c) uuid)).getLast?).getD dflt

/-- Number of elements of `l` carrying `uuid`. -/
def occurrences (sdk : PebbleSDK) (uuid : Uuid) (l : List BLECharacteristic) : Nat :=
  (l.filter (fun c => uuid_equal (sdk.ble_characteristic_get_uuid c) uuid)).length

/-- The three observations the claims are about: both slots and the number of
entries into `ready()`. -/
def summary (m : Machine) : BLECharacteristic × BLECharacteristic × Nat :=
  (m.s_ctx.scratch1_characteristic, m.s_ctx.scratch2_characteristic, ready_count m.calls)

/-- Effect of one inner-loop iteration on the summary. -/
def summary_step (sdk : PebbleSDK) (s : BLECharacteristic × BLECharacteristic × Nat)
    (ch : BLECharacteristic) : BLECharacteristic × BLECharacteristic × Nat :=
  if sdk.ble_characteristic_get_uuid ch = bean_scratch_char1_uuid then
    (ch, s.2.1,
      s.2.2 + (if ch ≠ sdk.BLE_CHARACTERISTIC_INVALID ∧ s.2.1 ≠ sdk.BLE_CHARACTERISTIC_INVALID
        then 1 else 0))
  else if sdk.ble_characteristic_get_uuid ch = bean_scratch_char2_uuid then
    (s.1, ch,
      s.2.2 + (if s.1 ≠ sdk.BLE_CHARACTERISTIC_INVALID ∧ ch ≠ sdk.BLE_CHARACTERISTIC_INVALID
        then 1 else 0))
  else s

/-- Entries into `ready()` recorded so far all saw two valid slots. -/
def ready_calls_valid (sdk : PebbleSDK) (calls : List Call) : Prop :=
  ∀ ctx, Call.ready ctx ∈ calls →
    ctx.scratch1_characteristic ≠ sdk.BLE_CHARACTERISTIC_INVALID ∧
      ctx.scratch2_characteristic ≠ sdk.BLE_CHARACTERISTIC_INVALID

/-- The stack `sdk` with every service cut down to its first 8 characteristics. -/
def truncated (sdk : PebbleSDK) : PebbleSDK :=
  { sdk with service_characteristics := fun s => (sdk.service_characteristics s).take 8 }

/-! ## A sample peer -/

/-- Some UUID that is none of the three of the registry. -/
def other_uuid : Uuid :=
  UuidMake 0x00 0x00 0x18 0x0f 0x00 0x00 0x10 0x00 0x80 0x00 0x00 0x80 0x5f 0x9b 0x34 0xfb

/-- A sample stack.  Service 1 is a Scratch Service with characteristics 11
(Scratch1), 12 (Scratch2), 13 (other); service 2 is another service; service 3 is
a Scratch Service with ten characteristics 31..40 of which only 39 (Scratch1) and
40 (Scratch2) are targets; service 4 is a Scratch Service with 41 (Scratch1), 42
and 43 (both Scratch2); service 5 is a Scratch Service with 51 (Scratch1) only. -/
def sample_sdk : PebbleSDK where
  BLE_CHARACTERISTIC_INVALID := 0
  BTErrnoConnected := 0
  ble_service_get_uuid := fun s =>
    if s = 1 ∨ s = 3 ∨ s = 4 ∨ s = 5 then bean_scratch_service_uuid else other_uuid
  service_characteristics := fun s =>
    if s = 1 then [11, 12, 13]
    else if s = 2 then [21]
    else if s = 3 then [31, 32, 33, 34, 35, 36, 37, 38, 39, 40]
    else if s = 4 then [41, 42, 43]
    else if s = 5 then [51]
    else []
  ble_characteristic_get_uuid := fun c =>
    if c = 11 ∨ c = 39 ∨ c = 41 ∨ c = 51 then bean_scratch_char1_uuid
    else if c = 12 ∨ c = 40 ∨ c = 42 ∨ c = 43 then bean_scratch_char2_uuid
    else other_uuid
  bt_device_get_address := fun d => d

/-- A context right after start-up: nothing resolved. -/
def sample_ctx : SumoControlCtx :=
  { device := 7, info_text_buffer := InfoText.empty,
    scratch1_characteristic := 0, scratch2_characteristic := 0 }

/-- A context with both characteristics resolved (to 11 and 12). -/
def sample_ready_ctx : SumoControlCtx :=
  { device := 7, info_text_buffer := InfoText.readyToRumble 7,
    scratch1_characteristic := 11, scratch2_characteristic := 12 }

/-! ## Auxiliary lemmas -/

theorem uuid_equal_iff (a b : Uuid) : uuid_equal a b = true ↔ a = b := by
  simp [uuid_equal]

theorem char1_ne_char2 : ¬ bean_scratch_char1_uuid = bean_scratch_char2_uuid := by decide

theorem char2_ne_char1 : ¬ bean_scratch_char2_uuid = bean_scratch_char1_uuid := by decide

theorem ready_count_append (xs ys : List Call) :
    ready_count (xs ++ ys) = ready_count xs + ready_count ys := by
  simp [ready_count]

theorem summary_characteristic_iteration (sdk : PebbleSDK) (m : Machine) (ch : BLECharacteristic) :
    summary (characteristic_iteration sdk m ch) = summary_step sdk (summary m) ch := by
  unfold characteristic_iteration summary_step summary
  by_cases h1 : sdk.ble_characteristic_get_uuid ch = bean_scratch_char1_uuid
  · by_cases hv : ch ≠ sdk.BLE_CHARACTERISTIC_INVALID ∧
        m.s_ctx.scratch2_characteristic ≠ sdk.BLE_CHARACTERISTIC_INVALID
    · simp [uuid_equal, h1, hv, ready, ready_count_append, ready_count]
    · simp [uuid_equal, h1, hv, ready, ready_count_append, ready_count]
  · by_cases h2 : sdk.ble_characteristic_get_uuid ch = bean_scratch_char2_uuid
    · by_cases hv : m.s_ctx.scratch1_characteristic ≠ sdk.BLE_CHARACTERISTIC_INVALID ∧
          ch ≠ sdk.BLE_CHARACTERISTIC_INVALID
      · simp [uuid_equal, h2, char2_ne_char1, hv, ready, ready_count_append, ready_count]
      · simp [uuid_equal, h2, char2_ne_char1, hv, ready, ready_count_append, ready_count]
    · simp [uuid_equal, h1, h2]

theorem summary_characteristics_loop (sdk : PebbleSDK) (l : List BLECharacteristic) (m : Machine) :
    summary (l.foldl (characteristic_iteration sdk) m) =
      l.foldl (summary_step sdk) (summary m) := by
  induction l generalizing m with
  | nil => rfl
  | cons ch rest ih => simp [List.foldl_cons, ih, summary_characteristic_iteration]

theorem take_buffer (l : List BLECharacteristic) :
    (l.take 8).take (if l.length > 8 then 8 else l.length) = l.take 8 := by
  by_cases h : l.length > 8
  · simp [h]
  · simp only [h, if_false]
    rw [List.take_take, Nat.min_eq_left (by omega), List.take_length,
      List.take_of_length_le (by omega)]

theorem service_iteration_eq (sdk : PebbleSDK) (device : BTDevice) (m : Machine)
    (service : BLEService) :
    service_iteration sdk device m service =
      if sdk.ble_service_get_uuid service = bean_scratch_service_uuid then
        ((sdk.service_characteristics service).take 8).foldl (characteristic_iteration sdk)
          { m with calls := m.calls ++
              [Call.app_log_service (sdk.ble_service_get_uuid service) service
                (sdk.bt_device_get_address device)] }
      else m := by
  unfold service_iteration ble_service_get_characteristics
  by_cases h : sdk.ble_service_get_uuid service = bean_scratch_service_uuid
  · simp only [uuid_equal, h, decide_True, Bool.not_true, if_true, List.length_take]
    simp [take_buffer]
  · simp [uuid_equal, h]

theorem enumerated_cons (sdk : PebbleSDK) (s : BLEService) (rest : List BLEService) :
    enumerated sdk (s :: rest) =
      (if sdk.ble_service_get_uuid s = bean_scratch_service_uuid
        then (sdk.service_characteristics s).take 8 else []) ++ enumerated sdk rest := by
  unfold enumerated
  by_cases h : sdk.ble_service_get_uuid s = bean_scratch_service_uuid
  · simp [List.filter_cons, uuid_equal, h]
  · simp [List.filter_cons, uuid_equal, h]

theorem summary_services_loop (sdk : PebbleSDK) (device : BTDevice) (services : List BLEService)
    (m : Machine) :
    summary (services.foldl (service_iteration sdk device) m) =
      (enumerated sdk services).foldl (summary_step sdk) (summary m) := by
  induction services generalizing m with
  | nil => rfl
  | cons s rest ih =>
    rw [List.foldl_cons, ih, enumerated_cons, List.foldl_append, service_iteration_eq]
    by_cases h : sdk.ble_service_get_uuid s = bean_scratch_service_uuid
    · simp only [h, if_true]
      rw [summary_characteristics_loop]
      congr 1
      simp [summary, ready_count_append, ready_count]
    · simp [h]


theorem mem_enumerated (sdk : PebbleSDK) (services : List BLEService) (c : BLECharacteristic) :
    c ∈ enumerated sdk services ↔
      ∃ s ∈ services, sdk.ble_service_get_uuid s = bean_scratch_service_uuid ∧
        c ∈ (sdk.service_characteristics s).take 8 := by
  simp [enumerated, uuid_equal, and_assoc]

theorem last_with_uuid_cons (sdk : PebbleSDK) (uuid : Uuid) (dflt ch : BLECharacteristic)
    (rest : List BLECharacteristic) :
    last_with_uuid sdk uuid dflt (ch :: rest) =
      last_with_uuid sdk uuid
        (if sdk.ble_characteristic_get_uuid ch = uuid then ch else dflt) rest := by
  unfold last_with_uuid
  by_cases h : sdk.ble_characteristic_get_uuid ch = uuid
  · simp [List.filter_cons, uuid_equal, h, List.getLast?_cons]
  · simp [List.filter_cons, uuid_equal, h]

theorem last_with_uuid_mem (sdk : PebbleSDK) (uuid : Uuid) (dflt : BLECharacteristic)
    (l : List BLECharacteristic) :
    last_with_uuid sdk uuid dflt l = dflt ∨
      (last_with_uuid sdk uuid dflt l ∈ l ∧
        sdk.ble_characteristic_get_uuid (last_with_uuid sdk uuid dflt l) = uuid) := by
  induction l generalizing dflt with
  | nil => left; rfl
  | cons ch rest ih =>
    rw [last_with_uuid_cons]
    by_cases h : sdk.ble_characteristic_get_uuid ch = uuid
    · simp only [h, if_true]
      rcases ih ch with h1 | h1
      · right; rw [h1]; exact ⟨List.mem_cons_self _ _, h⟩
      · right; exact ⟨List.mem_cons_of_mem _ h1.1, h1.2⟩
    · simp only [h, if_false]
      rcases ih dflt with h1 | h1
      · left; exact h1
      · right; exact ⟨List.mem_cons_of_mem _ h1.1, h1.2⟩

theorem last_with_uuid_of_mem (sdk : PebbleSDK) (uuid : Uuid) (dflt : BLECharacteristic)
    (l : List BLECharacteristic)
    (h : ∃ c ∈ l, sdk.ble_characteristic_get_uuid c = uuid) :
    last_with_uuid sdk uuid dflt l ∈ l ∧
      sdk.ble_characteristic_get_uuid (last_with_uuid sdk uuid dflt l) = uuid := by
  induction l generalizing dflt with
  | nil => simp at h
  | cons ch rest ih =>
    rw [last_with_uuid_cons]
    by_cases hc : sdk.ble_characteristic_get_uuid ch = uuid
    · simp only [hc, if_true]
      rcases last_with_uuid_mem sdk uuid ch rest with h1 | h1
      · rw [h1]; exact ⟨List.mem_cons_self _ _, hc⟩
      · exact ⟨List.mem_cons_of_mem _ h1.1, h1.2⟩
    · simp only [hc, if_false]
      obtain ⟨c, hmem, hu⟩ := h
      rcases List.mem_cons.mp hmem with rfl | hr
      · exact absurd hu hc
      · have := ih dflt ⟨c, hr, hu⟩
        exact ⟨List.mem_cons_of_mem _ this.1, this.2⟩

theorem fold_slot1 (sdk : PebbleSDK) (l : List BLECharacteristic)
    (s : BLECharacteristic × BLECharacteristic × Nat) :
    (l.foldl (summary_step sdk) s).1 = last_with_uuid sdk bean_scratch_char1_uuid s.1 l := by
  induction l generalizing s with
  | nil => rfl
  | cons ch rest ih =>
    rw [List.foldl_cons, ih, last_with_uuid_cons]
    congr 1
    unfold summary_step
    by_cases h1 : sdk.ble_characteristic_get_uuid ch = bean_scratch_char1_uuid
    · simp [h1]
    · by_cases h2 : sdk.ble_characteristic_get_uuid ch = bean_scratch_char2_uuid
      · simp [h2, char2_ne_char1]
      · simp [h1, h2]

theorem fold_slot2 (sdk : PebbleSDK) (l : List BLECharacteristic)
    (s : BLECharacteristic × BLECharacteristic × Nat) :
    (l.foldl (summary_step sdk) s).2.1 = last_with_uuid sdk bean_scratch_char2_uuid s.2.1 l := by
  induction l generalizing s with
  | nil => rfl
  | cons ch rest ih =>
    rw [List.foldl_cons, ih, last_with_uuid_cons]
    congr 1
    unfold summary_step
    by_cases h1 : sdk.ble_characteristic_get_uuid ch = bean_scratch_char1_uuid
    · simp [h1, char1_ne_char2]
    · by_cases h2 : sdk.ble_characteristic_get_uuid ch = bean_scratch_char2_uuid
      · simp [h2, char2_ne_char1]
      · simp [h1, h2]

theorem step_count_le (sdk : PebbleSDK) (s : BLECharacteristic × BLECharacteristic × Nat)
    (ch : BLECharacteristic) : s.2.2 ≤ (summary_step sdk s ch).2.2 := by
  unfold summary_step
  split_ifs <;> simp

theorem fold_count_mono (sdk : PebbleSDK) (l : List BLECharacteristic)
    (s : BLECharacteristic × BLECharacteristic × Nat) :
    s.2.2 ≤ (l.foldl (summary_step sdk) s).2.2 := by
  induction l generalizing s with
  | nil => exact Nat.le_refl _
  | cons ch rest ih =>
    rw [List.foldl_cons]
    exact Nat.le_trans (step_count_le sdk s ch) (ih _)


theorem step_char1 (sdk : PebbleSDK) (a b : BLECharacteristic) (n : Nat) (ch : BLECharacteristic)
    (h : sdk.ble_characteristic_get_uuid ch = bean_scratch_char1_uuid) :
    summary_step sdk (a, b, n) ch =
      (ch, b, n + (if ch ≠ sdk.BLE_CHARACTERISTIC_INVALID ∧ b ≠ sdk.BLE_CHARACTERISTIC_INVALID
        then 1 else 0)) := by
  simp [summary_step, h]

theorem step_char2 (sdk : PebbleSDK) (a b : BLECharacteristic) (n : Nat) (ch : BLECharacteristic)
    (h : sdk.ble_characteristic_get_uuid ch = bean_scratch_char2_uuid) :
    summary_step sdk (a, b, n) ch =
      (a, ch, n + (if a ≠ sdk.BLE_CHARACTERISTIC_INVALID ∧ ch ≠ sdk.BLE_CHARACTERISTIC_INVALID
        then 1 else 0)) := by
  simp [summary_step, h, char2_ne_char1]

theorem step_other (sdk : PebbleSDK) (s : BLECharacteristic × BLECharacteristic × Nat)
    (ch : BLECharacteristic)
    (h1 : ¬ sdk.ble_characteristic_get_uuid ch = bean_scratch_char1_uuid)
    (h2 : ¬ sdk.ble_characteristic_get_uuid ch = bean_scratch_char2_uuid) :
    summary_step sdk s ch = s := by
  simp [summary_step, h1, h2]

theorem occurrences_cons (sdk : PebbleSDK) (uuid : Uuid) (ch : BLECharacteristic)
    (rest : List BLECharacteristic) :
    occurrences sdk uuid (ch :: rest) =
      (if sdk.ble_characteristic_get_uuid ch = uuid then 1 else 0) + occurrences sdk uuid rest := by
  unfold occurrences
  by_cases h : sdk.ble_characteristic_get_uuid ch = uuid
  · simp [List.filter_cons, uuid_equal, h, Nat.add_comm]
  · simp [List.filter_cons, uuid_equal, h]

theorem occurrences_pos (sdk : PebbleSDK) (uuid : Uuid) (l : List BLECharacteristic)
    (h : 1 ≤ occurrences sdk uuid l) : ∃ c ∈ l, sdk.ble_characteristic_get_uuid c = uuid := by
  unfold occurrences at h
  obtain ⟨c, hc⟩ := List.exists_mem_of_length_pos h
  rw [List.mem_filter] at hc
  exact ⟨c, hc.1, (uuid_equal_iff _ _).mp hc.2⟩

/-- Lower bound: once both UUIDs have been met on valid handles, `ready()` has run. -/
theorem fold_count_pos (sdk : PebbleSDK) (l : List BLECharacteristic)
    (a b : BLECharacteristic) (n : Nat)
    (hv : ∀ c ∈ l, c ≠ sdk.BLE_CHARACTERISTIC_INVALID)
    (h1 : a ≠ sdk.BLE_CHARACTERISTIC_INVALID ∨
      ∃ c ∈ l, sdk.ble_characteristic_get_uuid c = bean_scratch_char1_uuid)
    (h2 : b ≠ sdk.BLE_CHARACTERISTIC_INVALID ∨
      ∃ c ∈ l, sdk.ble_characteristic_get_uuid c = bean_scratch_char2_uuid)
    (ht : ∃ c ∈ l, sdk.ble_characteristic_get_uuid c = bean_scratch_char1_uuid ∨
      sdk.ble_characteristic_get_uuid c = bean_scratch_char2_uuid) :
    n + 1 ≤ (l.foldl (summary_step sdk) (a, b, n)).2.2 := by
  induction l generalizing a b n with
  | nil => simp at ht
  | cons ch rest ih =>
    have hch : ch ≠ sdk.BLE_CHARACTERISTIC_INVALID := hv ch (List.mem_cons_self _ _)
    have hv' : ∀ c ∈ rest, c ≠ sdk.BLE_CHARACTERISTIC_INVALID :=
      fun c hc => hv c (List.mem_cons_of_mem _ hc)
    rw [List.foldl_cons]
    by_cases hc1 : sdk.ble_characteristic_get_uuid ch = bean_scratch_char1_uuid
    · rw [step_char1 sdk a b n ch hc1]
      by_cases hb : b ≠ sdk.BLE_CHARACTERISTIC_INVALID
      · have := fold_count_mono sdk rest
          (ch, b, n + (if ch ≠ sdk.BLE_CHARACTERISTIC_INVALID ∧
            b ≠ sdk.BLE_CHARACTERISTIC_INVALID then 1 else 0))
        simp only [hch, hb, ne_eq, not_false_eq_true, and_self, if_true] at this ⊢
        exact this
      · have hcond : ¬ (ch ≠ sdk.BLE_CHARACTERISTIC_INVALID ∧
            b ≠ sdk.BLE_CHARACTERISTIC_INVALID) := fun h => hb h.2
        rw [if_neg hcond, Nat.add_zero]
        have h2' : ∃ c ∈ rest, sdk.ble_characteristic_get_uuid c = bean_scratch_char2_uuid := by
          rcases h2 with h2 | ⟨c, hmem, hu⟩
          · exact absurd h2 hb
          · rcases List.mem_cons.mp hmem with rfl | hr
            · rw [hc1] at hu; exact absurd hu char1_ne_char2
            · exact ⟨c, hr, hu⟩
        obtain ⟨c, hr, hu⟩ := h2'
        exact ih ch b n hv' (Or.inl hch) (Or.inr ⟨c, hr, hu⟩) ⟨c, hr, Or.inr hu⟩
    · by_cases hc2 : sdk.ble_characteristic_get_uuid ch = bean_scratch_char2_uuid
      · rw [step_char2 sdk a b n ch hc2]
        by_cases ha : a ≠ sdk.BLE_CHARACTERISTIC_INVALID
        · have := fold_count_mono sdk rest
            (a, ch, n + (if a ≠ sdk.BLE_CHARACTERISTIC_INVALID ∧
              ch ≠ sdk.BLE_CHARACTERISTIC_INVALID then 1 else 0))
          simp only [hch, ha, ne_eq, not_false_eq_true, and_self, if_true] at this ⊢
          exact this
        · have hcond : ¬ (a ≠ sdk.BLE_CHARACTERISTIC_INVALID ∧
              ch ≠ sdk.BLE_CHARACTERISTIC_INVALID) := fun h => ha h.1
          rw [if_neg hcond, Nat.add_zero]
          have h1' : ∃ c ∈ rest, sdk.ble_characteristic_get_uuid c = bean_scratch_char1_uuid := by
            rcases h1 with h1 | ⟨c, hmem, hu⟩
            · exact absurd h1 ha
            · rcases List.mem_cons.mp hmem with rfl | hr
              · exact absurd hu hc1
              · exact ⟨c, hr, hu⟩
          obtain ⟨c, hr, hu⟩ := h1'
          exact ih a ch n hv' (Or.inr ⟨c, hr, hu⟩) (Or.inl hch) ⟨c, hr, Or.inl hu⟩
      · rw [step_other sdk (a, b, n) ch hc1 hc2]
        have tail : ∀ u : Uuid, ¬ sdk.ble_characteristic_get_uuid ch = u →
            (∃ c ∈ ch :: rest, sdk.ble_characteristic_get_uuid c = u) →
            ∃ c ∈ rest, sdk.ble_characteristic_get_uuid c = u := by
          intro u hne ⟨c, hmem, hu⟩
          rcases List.mem_cons.mp hmem with rfl | hr
          · exact absurd hu hne
          · exact ⟨c, hr, hu⟩
        refine ih a b n hv' (h1.imp id (tail _ hc1)) (h2.imp id (tail _ hc2)) ?_
        obtain ⟨c, hmem, hu⟩ := ht
        rcases List.mem_cons.mp hmem with rfl | hr
        · rcases hu with hu | hu
          · exact absurd hu hc1
          · exact absurd hu hc2
        · exact ⟨c, hr, hu⟩

/-- Upper bound: `ready()` runs at most once per target characteristic met. -/
theorem fold_count_le (sdk : PebbleSDK) (l : List BLECharacteristic)
    (s : BLECharacteristic × BLECharacteristic × Nat) :
    (l.foldl (summary_step sdk) s).2.2 ≤
      s.2.2 + (occurrences sdk bean_scratch_char1_uuid l +
        occurrences sdk bean_scratch_char2_uuid l) := by
  induction l generalizing s with
  | nil => simp
  | cons ch rest ih =>
    obtain ⟨a, b, n⟩ := s
    rw [List.foldl_cons, occurrences_cons, occurrences_cons]
    by_cases hc1 : sdk.ble_characteristic_get_uuid ch = bean_scratch_char1_uuid
    · have := ih (summary_step sdk (a, b, n) ch)
      rw [step_char1 sdk a b n ch hc1] at this ⊢
      simp only [hc1, char1_ne_char2, if_true, if_false] at this ⊢
      split_ifs at this ⊢ <;> omega
    · by_cases hc2 : sdk.ble_characteristic_get_uuid ch = bean_scratch_char2_uuid
      · have := ih (summary_step sdk (a, b, n) ch)
        rw [step_char2 sdk a b n ch hc2] at this ⊢
        simp only [hc2, char2_ne_char1, if_true, if_false] at this ⊢
        split_ifs at this ⊢ <;> omega
      · have := ih (a, b, n)
        rw [step_other sdk (a, b, n) ch hc1 hc2]
        simp only [hc1, hc2, if_false] at this ⊢
        omega

/-- Starting with both slots invalid, the first target met cannot trigger `ready()`. -/
theorem fold_count_lt (sdk : PebbleSDK) (l : List BLECharacteristic) (n : Nat)
    (h : 1 ≤ occurrences sdk bean_scratch_char1_uuid l +
      occurrences sdk bean_scratch_char2_uuid l) :
    (l.foldl (summary_step sdk)
        (sdk.BLE_CHARACTERISTIC_INVALID, sdk.BLE_CHARACTERISTIC_INVALID, n)).2.2 + 1 ≤
      n + (occurrences sdk bean_scratch_char1_uuid l +
        occurrences sdk bean_scratch_char2_uuid l) := by
  induction l with
  | nil => simp [occurrences] at h
  | cons ch rest ih =>
    rw [List.foldl_cons]
    rw [occurrences_cons, occurrences_cons] at h ⊢
    by_cases hc1 : sdk.ble_characteristic_get_uuid ch = bean_scratch_char1_uuid
    · rw [step_char1 sdk _ _ n ch hc1]
      have := fold_count_le sdk rest (ch, sdk.BLE_CHARACTERISTIC_INVALID, n)
      simp only [hc1, char1_ne_char2, if_true, if_false, ne_eq, not_true_eq_false, and_false,
        Nat.add_zero] at this ⊢
      omega
    · by_cases hc2 : sdk.ble_characteristic_get_uuid ch = bean_scratch_char2_uuid
      · rw [step_char2 sdk _ _ n ch hc2]
        have := fold_count_le sdk rest (sdk.BLE_CHARACTERISTIC_INVALID, ch, n)
        simp only [hc2, char2_ne_char1, if_true, if_false, ne_eq, not_true_eq_false, false_and,
          Nat.add_zero] at this ⊢
        omega
      · rw [step_other sdk _ ch hc1 hc2]
        simp only [hc1, hc2, if_false] at h ⊢
        have := ih (by omega)
        omega

/-- With valid reported handles, "ready() has run" and "both slots valid" stay equivalent. -/
theorem fold_ready_iff (sdk : PebbleSDK) (l : List BLECharacteristic)
    (a b : BLECharacteristic) (n : Nat)
    (hv : ∀ c ∈ l, c ≠ sdk.BLE_CHARACTERISTIC_INVALID)
    (h : 1 ≤ n ↔ (a ≠ sdk.BLE_CHARACTERISTIC_INVALID ∧ b ≠ sdk.BLE_CHARACTERISTIC_INVALID)) :
    1 ≤ (l.foldl (summary_step sdk) (a, b, n)).2.2 ↔
      ((l.foldl (summary_step sdk) (a, b, n)).1 ≠ sdk.BLE_CHARACTERISTIC_INVALID ∧
        (l.foldl (summary_step sdk) (a, b, n)).2.1 ≠ sdk.BLE_CHARACTERISTIC_INVALID) := by
  induction l generalizing a b n with
  | nil => simpa using h
  | cons ch rest ih =>
    have hch : ch ≠ sdk.BLE_CHARACTERISTIC_INVALID := hv ch (List.mem_cons_self _ _)
    have hv' : ∀ c ∈ rest, c ≠ sdk.BLE_CHARACTERISTIC_INVALID :=
      fun c hc => hv c (List.mem_cons_of_mem _ hc)
    rw [List.foldl_cons]
    by_cases hc1 : sdk.ble_characteristic_get_uuid ch = bean_scratch_char1_uuid
    · rw [step_char1 sdk a b n ch hc1]
      apply ih _ _ _ hv'
      by_cases hb : b ≠ sdk.BLE_CHARACTERISTIC_INVALID
      · simp [hch, hb]
      · have hn : n = 0 := by
          by_contra hn
          exact hb (h.mp (Nat.one_le_iff_ne_zero.mpr hn)).2
        simp [hb, hn]
    · by_cases hc2 : sdk.ble_characteristic_get_uuid ch = bean_scratch_char2_uuid
      · rw [step_char2 sdk a b n ch hc2]
        apply ih _ _ _ hv'
        by_cases ha : a ≠ sdk.BLE_CHARACTERISTIC_INVALID
        · simp [hch, ha]
        · have hn : n = 0 := by
            by_contra hn
            exact ha (h.mp (Nat.one_le_iff_ne_zero.mpr hn)).1
          simp [ha, hn]
      · rw [step_other sdk _ ch hc1 hc2]
        exact ih a b n hv' h


theorem summary_handler (sdk : PebbleSDK) (s_ctx : SumoControlCtx) (device : BTDevice)
    (services : List BLEService) (status : BTErrno) :
    summary (service_change_handler sdk s_ctx device services status) =
      (enumerated sdk services).foldl (summary_step sdk)
        (sdk.BLE_CHARACTERISTIC_INVALID, sdk.BLE_CHARACTERISTIC_INVALID, 0) := by
  unfold service_change_handler
  rw [summary_services_loop]
  rfl

theorem handler_slot1 (sdk : PebbleSDK) (s_ctx : SumoControlCtx) (device : BTDevice)
    (services : List BLEService) (status : BTErrno) :
    (service_change_handler sdk s_ctx device services status).s_ctx.scratch1_characteristic =
      last_with_uuid sdk bean_scratch_char1_uuid sdk.BLE_CHARACTERISTIC_INVALID
        (enumerated sdk services) := by
  have h := congrArg (fun t => t.1) (summary_handler sdk s_ctx device services status)
  simp only [fold_slot1] at h
  exact h

theorem handler_slot2 (sdk : PebbleSDK) (s_ctx : SumoControlCtx) (device : BTDevice)
    (services : List BLEService) (status : BTErrno) :
    (service_change_handler sdk s_ctx device services status).s_ctx.scratch2_characteristic =
      last_with_uuid sdk bean_scratch_char2_uuid sdk.BLE_CHARACTERISTIC_INVALID
        (enumerated sdk services) := by
  have h := congrArg (fun t => t.2.1) (summary_handler sdk s_ctx device services status)
  simp only [fold_slot2] at h
  exact h

theorem handler_ready_count (sdk : PebbleSDK) (s_ctx : SumoControlCtx) (device : BTDevice)
    (services : List BLEService) (status : BTErrno) :
    ready_count (service_change_handler sdk s_ctx device services status).calls =
      ((enumerated sdk services).foldl (summary_step sdk)
        (sdk.BLE_CHARACTERISTIC_INVALID, sdk.BLE_CHARACTERISTIC_INVALID, 0)).2.2 :=
  congrArg (fun t => t.2.2) (summary_handler sdk s_ctx device services status)

theorem enumerated_valid (sdk : PebbleSDK) (services : List BLEService)
    (hv : ∀ s ∈ services, ∀ c ∈ sdk.service_characteristics s,
      c ≠ sdk.BLE_CHARACTERISTIC_INVALID) :
    ∀ c ∈ enumerated sdk services, c ≠ sdk.BLE_CHARACTERISTIC_INVALID := by
  intro c hc
  obtain ⟨s, hs, _, hmem⟩ := (mem_enumerated sdk services c).mp hc
  exact hv s hs c (List.mem_of_mem_take hmem)

theorem enumerated_nil_of_no_target (sdk : PebbleSDK) (services : List BLEService)
    (h : ∀ s ∈ services, sdk.ble_service_get_uuid s ≠ bean_scratch_service_uuid) :
    enumerated sdk services = [] := by
  apply List.eq_nil_iff_forall_not_mem.mpr
  intro c hc
  obtain ⟨s, hs, hu, _⟩ := (mem_enumerated sdk services c).mp hc
  exact h s hs hu

/-- A slot is either invalid or one of the first 8 characteristics of a Scratch
Service of the list, carrying the slot's UUID. -/
theorem slot_origin (sdk : PebbleSDK) (uuid : Uuid) (services : List BLEService) :
    last_with_uuid sdk uuid sdk.BLE_CHARACTERISTIC_INVALID (enumerated sdk services) =
        sdk.BLE_CHARACTERISTIC_INVALID ∨
      ∃ s ∈ services, sdk.ble_service_get_uuid s = bean_scratch_service_uuid ∧
        last_with_uuid sdk uuid sdk.BLE_CHARACTERISTIC_INVALID (enumerated sdk services) ∈
          (sdk.service_characteristics s).take 8 := by
  rcases last_with_uuid_mem sdk uuid sdk.BLE_CHARACTERISTIC_INVALID (enumerated sdk services)
    with h | h
  · exact Or.inl h
  · exact Or.inr ((mem_enumerated sdk services _).mp h.1)

theorem ready_calls_valid_iteration (sdk : PebbleSDK) (m : Machine) (ch : BLECharacteristic)
    (h : ready_calls_valid sdk m.calls) :
    ready_calls_valid sdk (characteristic_iteration sdk m ch).calls := by
  intro ctx hmem
  unfold characteristic_iteration at hmem
  by_cases h1 : sdk.ble_characteristic_get_uuid ch = bean_scratch_char1_uuid
  · by_cases hv : ch ≠ sdk.BLE_CHARACTERISTIC_INVALID ∧
        m.s_ctx.scratch2_characteristic ≠ sdk.BLE_CHARACTERISTIC_INVALID
    · simp [uuid_equal, h1, hv, ready] at hmem
      rcases hmem with hmem | hmem
      · exact h ctx hmem
      · subst hmem; exact hv
    · simp [uuid_equal, h1, hv] at hmem
      exact h ctx hmem
  · by_cases h2 : sdk.ble_characteristic_get_uuid ch = bean_scratch_char2_uuid
    · by_cases hv : m.s_ctx.scratch1_characteristic ≠ sdk.BLE_CHARACTERISTIC_INVALID ∧
          ch ≠ sdk.BLE_CHARACTERISTIC_INVALID
      · simp [uuid_equal, h2, char2_ne_char1, hv, ready] at hmem
        rcases hmem with hmem | hmem
        · exact h ctx hmem
        · subst hmem; exact hv
      · simp [uuid_equal, h2, char2_ne_char1, hv] at hmem
        exact h ctx hmem
    · simp [uuid_equal, h1, h2] at hmem
      exact h ctx hmem

theorem ready_calls_valid_loop (sdk : PebbleSDK) (l : List BLECharacteristic) (m : Machine)
    (h : ready_calls_valid sdk m.calls) :
    ready_calls_valid sdk (l.foldl (characteristic_iteration sdk) m).calls := by
  induction l generalizing m with
  | nil => exact h
  | cons ch rest ih =>
    rw [List.foldl_cons]
    exact ih _ (ready_calls_valid_iteration sdk m ch h)

theorem ready_calls_valid_services (sdk : PebbleSDK) (device : BTDevice)
    (services : List BLEService) (m : Machine) (h : ready_calls_valid sdk m.calls) :
    ready_calls_valid sdk (services.foldl (service_iteration sdk device) m).calls := by
  induction services generalizing m with
  | nil => exact h
  | cons s rest ih =>
    rw [List.foldl_cons]
    apply ih
    rw [service_iteration_eq]
    by_cases hu : sdk.ble_service_get_uuid s = bean_scratch_service_uuid
    · simp only [hu, if_true]
      apply ready_calls_valid_loop
      intro ctx hmem
      simp at hmem
      exact h ctx hmem
    · simp only [hu, if_false]
      exact h

theorem truncated_handler (sdk : PebbleSDK) (s_ctx : SumoControlCtx) (device : BTDevice)
    (services : List BLEService) (status : BTErrno) :
    service_change_handler (truncated sdk) s_ctx device services status =
      service_change_handler sdk s_ctx device services status := by
  have hiter : characteristic_iteration (truncated sdk) = characteristic_iteration sdk := rfl
  have hsvc : service_iteration (truncated sdk) device = service_iteration sdk device := by
    funext m s
    rw [service_iteration_eq, service_iteration_eq, hiter]
    simp [truncated, List.take_take]
  unfold service_change_handler
  rw [hsvc]
  rfl

theorem invalidated_first (sdk : PebbleSDK) (s_ctx : SumoControlCtx) (a b : BLECharacteristic)
    (device : BTDevice) (services : List BLEService) (status : BTErrno) :
    service_change_handler sdk
        { s_ctx with scratch1_characteristic := a, scratch2_characteristic := b }
        device services status =
      service_change_handler sdk s_ctx device services status := rfl


/-! ## Service resolution -/

/-- C1: when no service of the discovered list carries the Scratch Service UUID,
`service_change_handler` returns with both slots equal to
`BLE_CHARACTERISTIC_INVALID`, whatever they held before, and never enters `ready()`. -/
theorem C1_no_target_service (sdk : PebbleSDK) (s_ctx : SumoControlCtx) (device : BTDevice)
    (services : List BLEService) (status : BTErrno)
    (h : ∀ s ∈ services, sdk.ble_service_get_uuid s ≠ bean_scratch_service_uuid) :
    (service_change_handler sdk s_ctx device services status).s_ctx.scratch1_characteristic =
        sdk.BLE_CHARACTERISTIC_INVALID ∧
      (service_change_handler sdk s_ctx device services status).s_ctx.scratch2_characteristic =
        sdk.BLE_CHARACTERISTIC_INVALID ∧
      ready_count (service_change_handler sdk s_ctx device services status).calls = 0 := by
  have hs := summary_handler sdk s_ctx device services status
  rw [enumerated_nil_of_no_target sdk services h] at hs
  simp only [summary, List.foldl_nil, Prod.mk.injEq] at hs
  exact hs

theorem C1_no_target_service_witness :
    (∀ s ∈ [2, 6], sample_sdk.ble_service_get_uuid s ≠ bean_scratch_service_uuid) ∧
      ((service_change_handler sample_sdk sample_ready_ctx 7 [2, 6] 0).s_ctx.scratch1_characteristic
          = sample_sdk.BLE_CHARACTERISTIC_INVALID ∧
        (service_change_handler sample_sdk sample_ready_ctx 7 [2, 6] 0).s_ctx.scratch2_characteristic
          = sample_sdk.BLE_CHARACTERISTIC_INVALID ∧
        ready_count (service_change_handler sample_sdk sample_ready_ctx 7 [2, 6] 0).calls = 0) :=
  ⟨by decide, C1_no_target_service sample_sdk sample_ready_ctx 7 [2, 6] 0 (by decide)⟩

/-- C2, as stated, fails twice.  Service 3 is a Scratch Service whose
characteristics include both target UUIDs, at positions 9 and 10: after the handler
both slots are invalid and `ready()` was never entered.  Service 4 is a Scratch
Service reporting Scratch1 once and Scratch2 twice: `ready()` is entered twice. -/
theorem C2_counterexample :
    ((3 ∈ [3] ∧ sample_sdk.ble_service_get_uuid 3 = bean_scratch_service_uuid ∧
        (∃ c ∈ sample_sdk.service_characteristics 3,
          sample_sdk.ble_characteristic_get_uuid c = bean_scratch_char1_uuid) ∧
        (∃ c ∈ sample_sdk.service_characteristics 3,
          sample_sdk.ble_characteristic_get_uuid c = bean_scratch_char2_uuid)) ∧
      (service_change_handler sample_sdk sample_ctx 7 [3] 0).s_ctx.scratch1_characteristic =
        sample_sdk.BLE_CHARACTERISTIC_INVALID ∧
      (service_change_handler sample_sdk sample_ctx 7 [3] 0).s_ctx.scratch2_characteristic =
        sample_sdk.BLE_CHARACTERISTIC_INVALID ∧
      ready_count (service_change_handler sample_sdk sample_ctx 7 [3] 0).calls = 0) ∧
    ((4 ∈ [4] ∧ sample_sdk.ble_service_get_uuid 4 = bean_scratch_service_uuid ∧
        (∃ c ∈ sample_sdk.service_characteristics 4,
          sample_sdk.ble_characteristic_get_uuid c = bean_scratch_char1_uuid) ∧
        (∃ c ∈ sample_sdk.service_characteristics 4,
          sample_sdk.ble_characteristic_get_uuid c = bean_scratch_char2_uuid)) ∧
      ready_count (service_change_handler sample_sdk sample_ctx 7 [4] 0).calls = 2) := by
  decide

/-- C2, amended: when every reported characteristic handle differs from
`BLE_CHARACTERISTIC_INVALID` and the list contains a Scratch Service with both target
UUIDs among its first 8 characteristics, then after `service_change_handler` slot 1
is valid and carries the Scratch1 UUID, slot 2 is valid and carries the Scratch2
UUID, and `ready()` was entered at least once; it was entered exactly once when each
of the two UUIDs occurs exactly once among the enumerated characteristics. -/
theorem C2_both_targets_resolve (sdk : PebbleSDK) (s_ctx : SumoControlCtx) (device : BTDevice)
    (services : List BLEService) (status : BTErrno) (s : BLEService)
    (hv : ∀ t ∈ services, ∀ c ∈ sdk.service_characteristics t,
      c ≠ sdk.BLE_CHARACTERISTIC_INVALID)
    (hs : s ∈ services)
    (hu : sdk.ble_service_get_uuid s = bean_scratch_service_uuid)
    (h1 : ∃ c ∈ (sdk.service_characteristics s).take 8,
      sdk.ble_characteristic_get_uuid c = bean_scratch_char1_uuid)
    (h2 : ∃ c ∈ (sdk.service_characteristics s).take 8,
      sdk.ble_characteristic_get_uuid c = bean_scratch_char2_uuid) :
    ((service_change_handler sdk s_ctx device services status).s_ctx.scratch1_characteristic ≠
          sdk.BLE_CHARACTERISTIC_INVALID ∧
        sdk.ble_characteristic_get_uuid
          (service_change_handler sdk s_ctx device services status).s_ctx.scratch1_characteristic =
            bean_scratch_char1_uuid) ∧
      ((service_change_handler sdk s_ctx device services status).s_ctx.scratch2_characteristic ≠
          sdk.BLE_CHARACTERISTIC_INVALID ∧
        sdk.ble_characteristic_get_uuid
          (service_change_handler sdk s_ctx device services status).s_ctx.scratch2_characteristic =
            bean_scratch_char2_uuid) ∧
      1 ≤ ready_count (service_change_handler sdk s_ctx device services status).calls ∧
      (occurrences sdk bean_scratch_char1_uuid (enumerated sdk services) = 1 →
        occurrences sdk bean_scratch_char2_uuid (enumerated sdk services) = 1 →
        ready_count (service_change_handler sdk s_ctx device services status).calls = 1) := by
  have hval := enumerated_valid sdk services hv
  have e1 : ∃ c ∈ enumerated sdk services,
      sdk.ble_characteristic_get_uuid c = bean_scratch_char1_uuid := by
    obtain ⟨c, hc, hcu⟩ := h1
    exact ⟨c, (mem_enumerated sdk services c).mpr ⟨s, hs, hu, hc⟩, hcu⟩
  have e2 : ∃ c ∈ enumerated sdk services,
      sdk.ble_characteristic_get_uuid c = bean_scratch_char2_uuid := by
    obtain ⟨c, hc, hcu⟩ := h2
    exact ⟨c, (mem_enumerated sdk services c).mpr ⟨s, hs, hu, hc⟩, hcu⟩
  have l1 := last_with_uuid_of_mem sdk bean_scratch_char1_uuid sdk.BLE_CHARACTERISTIC_INVALID
    (enumerated sdk services) e1
  have l2 := last_with_uuid_of_mem sdk bean_scratch_char2_uuid sdk.BLE_CHARACTERISTIC_INVALID
    (enumerated sdk services) e2
  have hpos : 1 ≤ ready_count (service_change_handler sdk s_ctx device services status).calls := by
    rw [handler_ready_count]
    have := fold_count_pos sdk (enumerated sdk services) sdk.BLE_CHARACTERISTIC_INVALID
      sdk.BLE_CHARACTERISTIC_INVALID 0 hval (Or.inr e1) (Or.inr e2)
      (by obtain ⟨c, hc, hcu⟩ := e1; exact ⟨c, hc, Or.inl hcu⟩)
    omega
  refine ⟨?_, ?_, hpos, ?_⟩
  · rw [handler_slot1]
    exact ⟨hval _ l1.1, l1.2⟩
  · rw [handler_slot2]
    exact ⟨hval _ l2.1, l2.2⟩
  · intro o1 o2
    have hle := fold_count_lt sdk (enumerated sdk services) 0 (by omega)
    rw [← handler_ready_count sdk s_ctx device services status] at hle
    omega

theorem C2_both_targets_resolve_witness :
    (∀ t ∈ [2, 1], ∀ c ∈ sample_sdk.service_characteristics t,
        c ≠ sample_sdk.BLE_CHARACTERISTIC_INVALID) ∧
      1 ∈ [2, 1] ∧
      sample_sdk.ble_service_get_uuid 1 = bean_scratch_service_uuid ∧
      (∃ c ∈ (sample_sdk.service_characteristics 1).take 8,
        sample_sdk.ble_characteristic_get_uuid c = bean_scratch_char1_uuid) ∧
      (∃ c ∈ (sample_sdk.service_characteristics 1).take 8,
        sample_sdk.ble_characteristic_get_uuid c = bean_scratch_char2_uuid) ∧
      (((service_change_handler sample_sdk sample_ctx 7 [2, 1] 0).s_ctx.scratch1_characteristic ≠
            sample_sdk.BLE_CHARACTERISTIC_INVALID ∧
          sample_sdk.ble_characteristic_get_uuid
            (service_change_handler sample_sdk sample_ctx 7 [2, 1] 0).s_ctx.scratch1_characteristic =
              bean_scratch_char1_uuid) ∧
        ((service_change_handler sample_sdk sample_ctx 7 [2, 1] 0).s_ctx.scratch2_characteristic ≠
            sample_sdk.BLE_CHARACTERISTIC_INVALID ∧
          sample_sdk.ble_characteristic_get_uuid
            (service_change_handler sample_sdk sample_ctx 7 [2, 1] 0).s_ctx.scratch2_characteristic =
              bean_scratch_char2_uuid) ∧
        1 ≤ ready_count (service_change_handler sample_sdk sample_ctx 7 [2, 1] 0).calls ∧
        (occurrences sample_sdk bean_scratch_char1_uuid (enumerated sample_sdk [2, 1]) = 1 →
          occurrences sample_sdk bean_scratch_char2_uuid (enumerated sample_sdk [2, 1]) = 1 →
          ready_count (service_change_handler sample_sdk sample_ctx 7 [2, 1] 0).calls = 1)) :=
  ⟨by decide, by decide, by decide, by decide, by decide,
    C2_both_targets_resolve sample_sdk sample_ctx 7 [2, 1] 0 1
      (by decide) (by decide) (by decide) (by decide) (by decide)⟩

/-- C3: `service_change_handler` gives the same two slots and the same number of
entries into `ready()` on a stack and on the stack with every service cut down to
its first 8 characteristics; and each slot it leaves is either
`BLE_CHARACTERISTIC_INVALID` or one of the first 8 characteristics of a Scratch
Service of the list. -/
theorem C3_truncation (sdk : PebbleSDK) (s_ctx : SumoControlCtx) (device : BTDevice)
    (services : List BLEService) (status : BTErrno) :
    ((service_change_handler (truncated sdk) s_ctx device services status).s_ctx.scratch1_characteristic
          = (service_change_handler sdk s_ctx device services status).s_ctx.scratch1_characteristic ∧
        (service_change_handler (truncated sdk) s_ctx device services status).s_ctx.scratch2_characteristic
          = (service_change_handler sdk s_ctx device services status).s_ctx.scratch2_characteristic ∧
        ready_count (service_change_handler (truncated sdk) s_ctx device services status).calls
          = ready_count (service_change_handler sdk s_ctx device services status).calls) ∧
      ((service_change_handler sdk s_ctx device services status).s_ctx.scratch1_characteristic =
          sdk.BLE_CHARACTERISTIC_INVALID ∨
        ∃ s ∈ services, sdk.ble_service_get_uuid s = bean_scratch_service_uuid ∧
          (service_change_handler sdk s_ctx device services status).s_ctx.scratch1_characteristic ∈
            (sdk.service_characteristics s).take 8) ∧
      ((service_change_handler sdk s_ctx device services status).s_ctx.scratch2_characteristic =
          sdk.BLE_CHARACTERISTIC_INVALID ∨
        ∃ s ∈ services, sdk.ble_service_get_uuid s = bean_scratch_service_uuid ∧
          (service_change_handler sdk s_ctx device services status).s_ctx.scratch2_characteristic ∈
            (sdk.service_characteristics s).take 8) := by
  refine ⟨?_, ?_, ?_⟩
  · rw [truncated_handler]
    exact ⟨rfl, rfl, rfl⟩
  · rw [handler_slot1]
    exact slot_origin sdk bean_scratch_char1_uuid services
  · rw [handler_slot2]
    exact slot_origin sdk bean_scratch_char2_uuid services

/-- C8: `service_change_handler` does not depend on the slots it finds: run from a
context and from the same context with any other two slot values, it returns the
same context and makes the same calls (so the same slots and the same number of
entries into `ready()`); and a slot it leaves valid is a characteristic of a
service of the list it was given. -/
theorem C8_handles_depend_on_discovery_only (sdk : PebbleSDK) (s_ctx : SumoControlCtx)
    (a b : BLECharacteristic) (device : BTDevice) (services : List BLEService)
    (status : BTErrno) :
    service_change_handler sdk
        { s_ctx with scratch1_characteristic := a, scratch2_characteristic := b }
        device services status =
        service_change_handler sdk s_ctx device services status ∧
      ((service_change_handler sdk s_ctx device services status).s_ctx.scratch1_characteristic ≠
          sdk.BLE_CHARACTERISTIC_INVALID →
        ∃ s ∈ services,
          (service_change_handler sdk s_ctx device services status).s_ctx.scratch1_characteristic ∈
            sdk.service_characteristics s) ∧
      ((service_change_handler sdk s_ctx device services status).s_ctx.scratch2_characteristic ≠
          sdk.BLE_CHARACTERISTIC_INVALID →
        ∃ s ∈ services,
          (service_change_handler sdk s_ctx device services status).s_ctx.scratch2_characteristic ∈
            sdk.service_characteristics s) := by
  refine ⟨invalidated_first sdk s_ctx a b device services status, ?_, ?_⟩
  · rw [handler_slot1]
    intro hne
    rcases slot_origin sdk bean_scratch_char1_uuid services with h | ⟨s, hs, _, hmem⟩
    · exact absurd h hne
    · exact ⟨s, hs, List.mem_of_mem_take hmem⟩
  · rw [handler_slot2]
    intro hne
    rcases slot_origin sdk bean_scratch_char2_uuid services with h | ⟨s, hs, _, hmem⟩
    · exact absurd h hne
    · exact ⟨s, hs, List.mem_of_mem_take hmem⟩

/-- C9: when every reported characteristic handle differs from
`BLE_CHARACTERISTIC_INVALID`, `service_change_handler` enters `ready()` at least once
if and only if both slots are valid when it returns; and every entry into `ready()`
sees two valid slots. -/
theorem C9_ready_iff_both_valid (sdk : PebbleSDK) (s_ctx : SumoControlCtx) (device : BTDevice)
    (services : List BLEService) (status : BTErrno)
    (hv : ∀ s ∈ services, ∀ c ∈ sdk.service_characteristics s,
      c ≠ sdk.BLE_CHARACTERISTIC_INVALID) :
    (1 ≤ ready_count (service_change_handler sdk s_ctx device services status).calls ↔
        ((service_change_handler sdk s_ctx device services status).s_ctx.scratch1_characteristic ≠
            sdk.BLE_CHARACTERISTIC_INVALID ∧
          (service_change_handler sdk s_ctx device services status).s_ctx.scratch2_characteristic ≠
            sdk.BLE_CHARACTERISTIC_INVALID)) ∧
      (∀ ctx, Call.ready ctx ∈ (service_change_handler sdk s_ctx device services status).calls →
        ctx.scratch1_characteristic ≠ sdk.BLE_CHARACTERISTIC_INVALID ∧
          ctx.scratch2_characteristic ≠ sdk.BLE_CHARACTERISTIC_INVALID) := by
  constructor
  · have h := fold_ready_iff sdk (enumerated sdk services) sdk.BLE_CHARACTERISTIC_INVALID
      sdk.BLE_CHARACTERISTIC_INVALID 0 (enumerated_valid sdk services hv) (by simp)
    rw [← summary_handler sdk s_ctx device services status] at h
    exact h
  · unfold service_change_handler
    apply ready_calls_valid_services
    intro ctx hmem
    simp at hmem

theorem C9_ready_iff_both_valid_witness :
    (∀ s ∈ [5, 2, 1], ∀ c ∈ sample_sdk.service_characteristics s,
        c ≠ sample_sdk.BLE_CHARACTERISTIC_INVALID) ∧
      ((1 ≤ ready_count (service_change_handler sample_sdk sample_ctx 7 [5, 2, 1] 0).calls ↔
          ((service_change_handler sample_sdk sample_ctx 7 [5, 2, 1] 0).s_ctx.scratch1_characteristic ≠
              sample_sdk.BLE_CHARACTERISTIC_INVALID ∧
            (service_change_handler sample_sdk sample_ctx 7 [5, 2, 1] 0).s_ctx.scratch2_characteristic ≠
              sample_sdk.BLE_CHARACTERISTIC_INVALID)) ∧
        (∀ ctx, Call.ready ctx ∈ (service_change_handler sample_sdk sample_ctx 7 [5, 2, 1] 0).calls →
          ctx.scratch1_characteristic ≠ sample_sdk.BLE_CHARACTERISTIC_INVALID ∧
            ctx.scratch2_characteristic ≠ sample_sdk.BLE_CHARACTERISTIC_INVALID)) :=
  ⟨by decide, C9_ready_iff_both_valid sample_sdk sample_ctx 7 [5, 2, 1] 0 (by decide)⟩

/-- C10: last write wins.  After `service_change_handler` slot 1 holds the last
enumerated characteristic carrying the Scratch1 UUID and slot 2 the last one carrying
the Scratch2 UUID, in enumeration order (first 8 characteristics of each Scratch
Service, services in list order); a slot whose UUID was not met holds
`BLE_CHARACTERISTIC_INVALID`. -/
theorem C10_last_write_wins (sdk : PebbleSDK) (s_ctx : SumoControlCtx) (device : BTDevice)
    (services : List BLEService) (status : BTErrno) :
    (service_change_handler sdk s_ctx device services status).s_ctx.scratch1_characteristic =
        last_with_uuid sdk bean_scratch_char1_uuid sdk.BLE_CHARACTERISTIC_INVALID
          (enumerated sdk services) ∧
      (service_change_handler sdk s_ctx device services status).s_ctx.scratch2_characteristic =
        last_with_uuid sdk bean_scratch_char2_uuid sdk.BLE_CHARACTERISTIC_INVALID
          (enumerated sdk services) :=
  ⟨handler_slot1 sdk s_ctx device services status, handler_slot2 sdk s_ctx device services status⟩


/-! ## Connection events -/

/-- C7, as stated, fails: run from a context with both slots resolved (11 and 12),
`connection_handler` returns with both slots still 11 and 12, for the status
`BTErrnoConnected` and for another status (4) alike. -/
theorem C7_counterexample :
    (sample_ready_ctx.scratch1_characteristic ≠ sample_sdk.BLE_CHARACTERISTIC_INVALID ∧
      sample_ready_ctx.scratch2_characteristic ≠ sample_sdk.BLE_CHARACTERISTIC_INVALID) ∧
    ((connection_handler sample_sdk sample_ready_ctx 7
          sample_sdk.BTErrnoConnected).s_ctx.scratch1_characteristic = 11 ∧
      (connection_handler sample_sdk sample_ready_ctx 7
          sample_sdk.BTErrnoConnected).s_ctx.scratch2_characteristic = 12 ∧
      (connection_handler sample_sdk sample_ready_ctx 7
          sample_sdk.BTErrnoConnected).s_ctx.scratch1_characteristic ≠
        sample_sdk.BLE_CHARACTERISTIC_INVALID ∧
      (connection_handler sample_sdk sample_ready_ctx 7
          sample_sdk.BTErrnoConnected).s_ctx.scratch2_characteristic ≠
        sample_sdk.BLE_CHARACTERISTIC_INVALID) ∧
    ((4 : BTErrno) ≠ sample_sdk.BTErrnoConnected ∧
      (connection_handler sample_sdk sample_ready_ctx 7 4).s_ctx.scratch1_characteristic ≠
        sample_sdk.BLE_CHARACTERISTIC_INVALID ∧
      (connection_handler sample_sdk sample_ready_ctx 7 4).s_ctx.scratch2_characteristic ≠
        sample_sdk.BLE_CHARACTERISTIC_INVALID) := by
  decide

/-- C7, amended: for every context and every status `connection_handler` leaves both
slots (and the device) as it found them.  Its whole effect is: it stores the status
text (connected or not, the device address, the status) in `info_text_buffer` and
shows it with one `text_layer_set_text` call, and, exactly when the status is
`BTErrnoConnected`, it then makes one `ble_client_discover_services_and_characteristics`
call for the device; it makes no other call.  The slots are invalidated by the
`service_change_handler` run that follows: after it, run from the context
`connection_handler` left, each slot is `BLE_CHARACTERISTIC_INVALID` or a
characteristic enumerated in that discovery. -/
theorem C7_connection_handler_keeps_slots (sdk : PebbleSDK) (s_ctx : SumoControlCtx)
    (device : BTDevice) (connection_status : BTErrno) :
    ((connection_handler sdk s_ctx device connection_status).s_ctx.scratch1_characteristic =
          s_ctx.scratch1_characteristic ∧
        (connection_handler sdk s_ctx device connection_status).s_ctx.scratch2_characteristic =
          s_ctx.scratch2_characteristic) ∧
      (connection_handler sdk s_ctx device connection_status).s_ctx =
        { s_ctx with
          info_text_buffer :=
            InfoText.connection (decide (connection_status = sdk.BTErrnoConnected))
              (sdk.bt_device_get_address device) connection_status } ∧
      (connection_status = sdk.BTErrnoConnected →
        (connection_handler sdk s_ctx device connection_status).calls =
          [Call.text_layer_set_text
              (InfoText.connection true (sdk.bt_device_get_address device) connection_status),
            Call.ble_client_discover_services_and_characteristics device]) ∧
      (connection_status ≠ sdk.BTErrnoConnected →
        (connection_handler sdk s_ctx device connection_status).calls =
          [Call.text_layer_set_text
              (InfoText.connection false (sdk.bt_device_get_address device) connection_status)]) ∧
      (∀ (services : List BLEService) (status : BTErrno),
        ((service_change_handler sdk (connection_handler sdk s_ctx device connection_status).s_ctx
              device services status).s_ctx.scratch1_characteristic =
            sdk.BLE_CHARACTERISTIC_INVALID ∨
          (service_change_handler sdk (connection_handler sdk s_ctx device connection_status).s_ctx
              device services status).s_ctx.scratch1_characteristic ∈ enumerated sdk services) ∧
        ((service_change_handler sdk (connection_handler sdk s_ctx device connection_status).s_ctx
              device services status).s_ctx.scratch2_characteristic =
            sdk.BLE_CHARACTERISTIC_INVALID ∨
          (service_change_handler sdk (connection_handler sdk s_ctx device connection_status).s_ctx
              device services status).s_ctx.scratch2_characteristic ∈ enumerated sdk services)) := by
  refine ⟨?_, ?_, ?_, ?_, ?_⟩
  · unfold connection_handler
    by_cases hc : connection_status = sdk.BTErrnoConnected <;> simp [hc]
  · unfold connection_handler
    by_cases hc : connection_status = sdk.BTErrnoConnected <;> simp [hc]
  · intro hc
    unfold connection_handler
    simp [hc]
  · intro hc
    unfold connection_handler
    simp [hc]
  · intro services status
    rw [handler_slot1, handler_slot2]
    exact ⟨(last_with_uuid_mem sdk _ _ _).imp id (fun h => h.1),
      (last_with_uuid_mem sdk _ _ _).imp id (fun h => h.1)⟩

/-! ## Buttons -/

/-- C4, as stated, fails: with both slots invalid, Up-Pressed makes one
`ble_client_write_without_response` call (on the invalid handle) and Select-Released
makes two. -/
theorem C4_counterexample :
    (sample_ctx.scratch1_characteristic = sample_sdk.BLE_CHARACTERISTIC_INVALID ∨
      sample_ctx.scratch2_characteristic = sample_sdk.BLE_CHARACTERISTIC_INVALID) ∧
    writes (button_event ButtonId.BUTTON_ID_UP ButtonEdge.Pressed sample_ctx).calls =
      [(0, 180, 2)] ∧
    (writes (button_event ButtonId.BUTTON_ID_UP ButtonEdge.Pressed sample_ctx).calls).length ≠ 0 ∧
    (writes (button_event ButtonId.BUTTON_ID_SELECT ButtonEdge.Released sample_ctx).calls).length
      = 2 := by
  decide

/-- C4, amended: the button handlers do not look at the slots' validity.  In a
context where slot 1 or slot 2 is `BLE_CHARACTERISTIC_INVALID`, every Up edge still
makes exactly one `ble_client_write_without_response` call, on the current value of
slot 1, every Down edge exactly one, on the current value of slot 2, and every Select
edge exactly two, on slot 1 then slot 2; the context is left as it was. -/
theorem C4_buttons_write_when_not_ready (sdk : PebbleSDK) (s_ctx : SumoControlCtx)
    (edge : ButtonEdge)
    (_h : s_ctx.scratch1_characteristic = sdk.BLE_CHARACTERISTIC_INVALID ∨
      s_ctx.scratch2_characteristic = sdk.BLE_CHARACTERISTIC_INVALID) :
    (writes (button_event ButtonId.BUTTON_ID_UP edge s_ctx).calls).map (fun w => w.1) =
        [s_ctx.scratch1_characteristic] ∧
      (writes (button_event ButtonId.BUTTON_ID_DOWN edge s_ctx).calls).map (fun w => w.1) =
        [s_ctx.scratch2_characteristic] ∧
      (writes (button_event ButtonId.BUTTON_ID_SELECT edge s_ctx).calls).map (fun w => w.1) =
        [s_ctx.scratch1_characteristic, s_ctx.scratch2_characteristic] ∧
      (∀ button : ButtonId, (button_event button edge s_ctx).s_ctx = s_ctx) := by
  cases edge
  · exact ⟨rfl, rfl, rfl, fun button => by cases button <;> rfl⟩
  · exact ⟨rfl, rfl, rfl, fun button => by cases button <;> rfl⟩

theorem C4_buttons_write_when_not_ready_witness :
    (sample_ctx.scratch1_characteristic = sample_sdk.BLE_CHARACTERISTIC_INVALID ∨
      sample_ctx.scratch2_characteristic = sample_sdk.BLE_CHARACTERISTIC_INVALID) ∧
    ((writes (button_event ButtonId.BUTTON_ID_UP ButtonEdge.Pressed sample_ctx).calls).map
          (fun w => w.1) = [sample_ctx.scratch1_characteristic] ∧
      (writes (button_event ButtonId.BUTTON_ID_DOWN ButtonEdge.Pressed sample_ctx).calls).map
          (fun w => w.1) = [sample_ctx.scratch2_characteristic] ∧
      (writes (button_event ButtonId.BUTTON_ID_SELECT ButtonEdge.Pressed sample_ctx).calls).map
          (fun w => w.1) =
        [sample_ctx.scratch1_characteristic, sample_ctx.scratch2_characteristic] ∧
      (∀ button : ButtonId,
        (button_event button ButtonEdge.Pressed sample_ctx).s_ctx = sample_ctx)) :=
  ⟨by decide, C4_buttons_write_when_not_ready sample_sdk sample_ctx ButtonEdge.Pressed
    (by decide)⟩

/-- C5: the servo constants are Forward = 0, Stop = 90, Backward = 180, and with both
slots valid the handlers subscribed by `click_config_provider` make exactly the
writes of the mapping table: Up-Pressed slot 1 := 180; Up-Released slot 1 := 90;
Down-Pressed slot 2 := 0; Down-Released slot 2 := 90; Select-Pressed slot 1 := 0 and
slot 2 := 180; Select-Released slot 1 := 90 and slot 2 := 90.  Every write has a
length of 2 bytes and a value below 2^16. -/
theorem C5_button_mapping (sdk : PebbleSDK) (s_ctx : SumoControlCtx)
    (_h1 : s_ctx.scratch1_characteristic ≠ sdk.BLE_CHARACTERISTIC_INVALID)
    (_h2 : s_ctx.scratch2_characteristic ≠ sdk.BLE_CHARACTERISTIC_INVALID) :
    (SERVO_FWD = 0 ∧ SERVO_STILL = 90 ∧ SERVO_BACK = 180) ∧
      writes (button_event ButtonId.BUTTON_ID_UP ButtonEdge.Pressed s_ctx).calls =
        [(s_ctx.scratch1_characteristic, 180, 2)] ∧
      writes (button_event ButtonId.BUTTON_ID_UP ButtonEdge.Released s_ctx).calls =
        [(s_ctx.scratch1_characteristic, 90, 2)] ∧
      writes (button_event ButtonId.BUTTON_ID_DOWN ButtonEdge.Pressed s_ctx).calls =
        [(s_ctx.scratch2_characteristic, 0, 2)] ∧
      writes (button_event ButtonId.BUTTON_ID_DOWN ButtonEdge.Released s_ctx).calls =
        [(s_ctx.scratch2_characteristic, 90, 2)] ∧
      writes (button_event ButtonId.BUTTON_ID_SELECT ButtonEdge.Pressed s_ctx).calls =
        [(s_ctx.scratch1_characteristic, 0, 2), (s_ctx.scratch2_characteristic, 180, 2)] ∧
      writes (button_event ButtonId.BUTTON_ID_SELECT ButtonEdge.Released s_ctx).calls =
        [(s_ctx.scratch1_characteristic, 90, 2), (s_ctx.scratch2_characteristic, 90, 2)] ∧
      (∀ (button : ButtonId) (edge : ButtonEdge),
        ∀ w ∈ writes (button_event button edge s_ctx).calls, w.2.2 = 2 ∧ w.2.1 < 2 ^ 16) := by
  refine ⟨⟨rfl, rfl, rfl⟩, rfl, rfl, rfl, rfl, rfl, rfl, ?_⟩
  intro button edge w hw
  cases button <;> cases edge <;>
    simp [button_event, click_config_provider, writes, handle_up_button_down,
      handle_up_button_up, handle_down_button_down, handle_down_button_up,
      handle_select_button_down, handle_select_button_up, SERVO_BACK, SERVO_STILL, SERVO_FWD,
      sizeof_uint16_t] at hw <;>
    (try rcases hw with rfl | rfl) <;> simp

theorem C5_button_mapping_witness :
    (sample_ready_ctx.scratch1_characteristic ≠ sample_sdk.BLE_CHARACTERISTIC_INVALID) ∧
    (sample_ready_ctx.scratch2_characteristic ≠ sample_sdk.BLE_CHARACTERISTIC_INVALID) ∧
    ((SERVO_FWD = 0 ∧ SERVO_STILL = 90 ∧ SERVO_BACK = 180) ∧
      writes (button_event ButtonId.BUTTON_ID_UP ButtonEdge.Pressed sample_ready_ctx).calls =
        [(sample_ready_ctx.scratch1_characteristic, 180, 2)] ∧
      writes (button_event ButtonId.BUTTON_ID_UP ButtonEdge.Released sample_ready_ctx).calls =
        [(sample_ready_ctx.scratch1_characteristic, 90, 2)] ∧
      writes (button_event ButtonId.BUTTON_ID_DOWN ButtonEdge.Pressed sample_ready_ctx).calls =
        [(sample_ready_ctx.scratch2_characteristic, 0, 2)] ∧
      writes (button_event ButtonId.BUTTON_ID_DOWN ButtonEdge.Released sample_ready_ctx).calls =
        [(sample_ready_ctx.scratch2_characteristic, 90, 2)] ∧
      writes (button_event ButtonId.BUTTON_ID_SELECT ButtonEdge.Pressed sample_ready_ctx).calls =
        [(sample_ready_ctx.scratch1_characteristic, 0, 2),
         (sample_ready_ctx.scratch2_characteristic, 180, 2)] ∧
      writes (button_event ButtonId.BUTTON_ID_SELECT ButtonEdge.Released sample_ready_ctx).calls =
        [(sample_ready_ctx.scratch1_characteristic, 90, 2),
         (sample_ready_ctx.scratch2_characteristic, 90, 2)] ∧
      (∀ (button : ButtonId) (edge : ButtonEdge),
        ∀ w ∈ writes (button_event button edge sample_ready_ctx).calls,
          w.2.2 = 2 ∧ w.2.1 < 2 ^ 16)) :=
  ⟨by decide, by decide,
    C5_button_mapping sample_sdk sample_ready_ctx (by decide) (by decide)⟩

/-- C6, as stated, fails: in a ready context (slots 11 and 12) the sequence
Up-Pressed, Up-Released writes the values 180 then 90, not 0 then 90. -/
theorem C6_counterexample :
    (sample_ready_ctx.scratch1_characteristic ≠ sample_sdk.BLE_CHARACTERISTIC_INVALID ∧
      sample_ready_ctx.scratch2_characteristic ≠ sample_sdk.BLE_CHARACTERISTIC_INVALID) ∧
    (writes (button_events
        [(ButtonId.BUTTON_ID_UP, ButtonEdge.Pressed), (ButtonId.BUTTON_ID_UP, ButtonEdge.Released)]
        sample_ready_ctx).calls).map (fun w => w.2.1) = [180, 90] ∧
    (writes (button_events
        [(ButtonId.BUTTON_ID_UP, ButtonEdge.Pressed), (ButtonId.BUTTON_ID_UP, ButtonEdge.Released)]
        sample_ready_ctx).calls).map (fun w => w.2.1) ≠ [0, 90] := by
  decide

/-- C6, amended: in every ready context the sequence Up-Pressed, Up-Released makes
exactly two writes, both on slot 1, with the values 180 then 90 in that order, and
no write on slot 2. -/
theorem C6_up_press_release (sdk : PebbleSDK) (s_ctx : SumoControlCtx)
    (_h1 : s_ctx.scratch1_characteristic ≠ sdk.BLE_CHARACTERISTIC_INVALID)
    (_h2 : s_ctx.scratch2_characteristic ≠ sdk.BLE_CHARACTERISTIC_INVALID) :
    writes (button_events
        [(ButtonId.BUTTON_ID_UP, ButtonEdge.Pressed), (ButtonId.BUTTON_ID_UP, ButtonEdge.Released)]
        s_ctx).calls =
      [(s_ctx.scratch1_characteristic, 180, 2), (s_ctx.scratch1_characteristic, 90, 2)] := by
  rfl

theorem C6_up_press_release_witness :
    (sample_ready_ctx.scratch1_characteristic ≠ sample_sdk.BLE_CHARACTERISTIC_INVALID) ∧
    (sample_ready_ctx.scratch2_characteristic ≠ sample_sdk.BLE_CHARACTERISTIC_INVALID) ∧
    writes (button_events
        [(ButtonId.BUTTON_ID_UP, ButtonEdge.Pressed), (ButtonId.BUTTON_ID_UP, ButtonEdge.Released)]
        sample_ready_ctx).calls =
      [(sample_ready_ctx.scratch1_characteristic, 180, 2),
       (sample_ready_ctx.scratch1_characteristic, 90, 2)] :=
  ⟨by decide, by decide, C6_up_press_release sample_sdk sample_ready_ctx (by decide) (by decide)⟩

end PebbleBot
